import Mathlib

/-!
Shallow embedding of the tax-computation engine found in
src/backend/app/agents/tax_calculation_agent.py (class TaxCalculationAgent),
together with proofs about it.

Modelling conventions:
* Python float arithmetic on monetary values is modelled by exact rationals;
  a decimal literal such as 0.04 denotes the corresponding rational.
* The infinite float used as the upper bound of the last slab of each regime
  table becomes Option.none in the Slab structure.
* Formatted display strings (f-strings interpolating numbers) are modelled by
  structured payloads carrying the interpolated values; plain string literals
  are kept verbatim.
* The wall clock (datetime.now().isoformat()) is an explicit parameter now,
  since the timestamp appears in the returned dictionary.
* The external AI agent call inside calculate_tax_liability is modelled by an
  explicit parameter of type AgentOutcome: the agent may be absent, return a
  response, or raise.  The surrounding try/except of the Python code cannot
  fire in the embedded arithmetic, which is total.
-/

namespace TaxAgent

/-- One entry of a regime slab table: the dictionaries with keys min, max and
rate in tax_constants.  max = none models the unbounded final slab. -/
structure Slab where
  min : ℚ
  max : Option ℚ
  rate : ℚ
deriving DecidableEq

/-- tax_constants["standard_deduction"]. -/
def standard_deduction : ℚ := 50000

/-- tax_constants["section_80c_limit"]. -/
def section_80c_limit : ℚ := 150000

/-- tax_constants["section_80d_limit"]. -/
def section_80d_limit : ℚ := 25000

/-- tax_constants["old_regime_slabs"]. -/
def old_regime_slabs : List Slab :=
  [⟨0, some 250000, 0⟩,
   ⟨250001, some 500000, 5⟩,
   ⟨500001, some 1000000, 20⟩,
   ⟨1000001, none, 30⟩]

/-- tax_constants["new_regime_slabs"]. -/
def new_regime_slabs : List Slab :=
  [⟨0, some 300000, 0⟩,
   ⟨300001, some 600000, 5⟩,
   ⟨600001, some 900000, 10⟩,
   ⟨900001, some 1200000, 15⟩,
   ⟨1200001, some 1500000, 20⟩,
   ⟨1500001, none, 30⟩]

/-- The local variable slab_max of both loops: the slab max, except that the
unbounded slab uses remaining_income + slab_min. -/
def slab_max (remaining_income : ℚ) (s : Slab) : ℚ :=
  match s.max with
  | some m => m
  | none => remaining_income + s.min

/-- The contribution of one slab to the total of _calculate_tax_by_slabs:
the body of its for-loop, whose local taxable_in_slab is written out as
min (remaining_income - slab_min) (slab_max - slab_min).  The variable
remaining_income is never modified in that function. -/
def slabContribution (remaining_income : ℚ) (s : Slab) : ℚ :=
  if remaining_income > s.min then
    if min (remaining_income - s.min) (slab_max remaining_income s - s.min) > 0 then
      min (remaining_income - s.min) (slab_max remaining_income s - s.min) * s.rate / 100
    else 0
  else 0

/-- The for-loop of _calculate_tax_by_slabs.  The loop breaks as soon as
remaining_income ≤ 0; since remaining_income is loop-invariant in that
function, the break is a test repeated at the head of each iteration. -/
def taxBySlabsLoop (remaining_income : ℚ) : List Slab → ℚ
  | [] => 0
  | s :: rest =>
    if remaining_income ≤ 0 then 0
    else slabContribution remaining_income s + taxBySlabsLoop remaining_income rest

/-- TaxCalculationAgent._calculate_tax_by_slabs. -/
def _calculate_tax_by_slabs (taxable_income : ℚ) (tax_slabs : List Slab) : ℚ :=
  taxBySlabsLoop taxable_income tax_slabs

/-- Payload of the f-string slab_display: slab_min and the computed slab_max.
(The "Above" alternative of the Python code is dead: slab_max has already been
replaced by a finite number when the display is built.) -/
structure SlabDisplay where
  lo : ℚ
  hi : ℚ
deriving DecidableEq

/-- One entry of the list returned by _get_tax_breakdown; rate carries the
payload of the percent f-string. -/
structure BreakdownEntry where
  slab : SlabDisplay
  rate : ℚ
  tax : ℚ
  taxable_amount : ℚ
deriving DecidableEq

/-- The for-loop of _get_tax_breakdown.  Unlike _calculate_tax_by_slabs, this
loop decrements remaining_income by taxable_in_slab after appending an entry. -/
def breakdownLoop : ℚ → List Slab → List BreakdownEntry
  | _, [] => []
  | remaining_income, s :: rest =>
    if remaining_income ≤ 0 then []
    else
      let smax := slab_max remaining_income s
      if remaining_income > s.min then
        let taxable_in_slab := min (remaining_income - s.min) (smax - s.min)
        if taxable_in_slab > 0 then
          { slab := ⟨s.min, smax⟩
            rate := s.rate
            tax := taxable_in_slab * s.rate / 100
            taxable_amount := taxable_in_slab }
            :: breakdownLoop (remaining_income - taxable_in_slab) rest
        else breakdownLoop remaining_income rest
      else breakdownLoop remaining_income rest

/-- TaxCalculationAgent._get_tax_breakdown. -/
def _get_tax_breakdown (taxable_income : ℚ) (regime : String) : List BreakdownEntry :=
  breakdownLoop taxable_income (if regime = "old" then old_regime_slabs else new_regime_slabs)

/-- The deductions dictionary of a regime result. -/
structure Deductions where
  standard_deduction : ℚ
  section_80c : ℚ
  section_80d : ℚ
  section_24b : ℚ
  hra : ℚ
  other : ℚ
  total : ℚ
deriving DecidableEq

/-- The dictionary returned by _calculate_old_regime and _calculate_new_regime. -/
structure RegimeCalc where
  gross_income : ℚ
  deductions : Deductions
  taxable_income : ℚ
  tax_before_cess : ℚ
  cess : ℚ
  total_tax : ℚ
  taxLiability : ℚ
deriving DecidableEq

/-- TaxCalculationAgent._calculate_old_regime. -/
def _calculate_old_regime (income investments_80c health_insurance home_loan hra : ℚ) :
    RegimeCalc :=
  let deduction_80c := min investments_80c section_80c_limit
  let deduction_80d := min health_insurance section_80d_limit
  let deduction_24b := min home_loan 200000
  let deduction_hra := min hra (income * 0.5)
  let total_deductions :=
    standard_deduction + deduction_80c + deduction_80d + deduction_24b + deduction_hra
  let taxable_income := max 0 (income - total_deductions)
  let tax := _calculate_tax_by_slabs taxable_income old_regime_slabs
  let cess := tax * 0.04
  let total_tax := tax + cess
  { gross_income := income
    deductions :=
      { standard_deduction := standard_deduction
        section_80c := deduction_80c
        section_80d := deduction_80d
        section_24b := deduction_24b
        hra := deduction_hra
        other := 0
        total := total_deductions }
    taxable_income := taxable_income
    tax_before_cess := tax
    cess := cess
    total_tax := total_tax
    taxLiability := total_tax }

/-- TaxCalculationAgent._calculate_new_regime. -/
def _calculate_new_regime (income : ℚ) : RegimeCalc :=
  let taxable_income := max 0 (income - standard_deduction)
  let tax := _calculate_tax_by_slabs taxable_income new_regime_slabs
  let cess := tax * 0.04
  let total_tax := tax + cess
  { gross_income := income
    deductions :=
      { standard_deduction := standard_deduction
        section_80c := 0
        section_80d := 0
        section_24b := 0
        hra := 0
        other := 0
        total := standard_deduction }
    taxable_income := taxable_income
    tax_before_cess := tax
    cess := cess
    total_tax := total_tax
    taxLiability := total_tax }

/-- The caller-supplied financial_data dictionary: each key may be absent. -/
structure FinancialData where
  annual_income : Option ℚ
  investments_80c : Option ℚ
  health_insurance : Option ℚ
  home_loan_interest : Option ℚ
  hra_claimed : Option ℚ
deriving DecidableEq

/-- Round a rational to the nearest integer, ties to even: the idealisation of
the rounding used by the Python builtin round. -/
def roundHalfEvenInt (q : ℚ) : ℤ :=
  let f := ⌊q⌋
  if q - f < 1/2 then f
  else if q - f > 1/2 then f + 1
  else if f % 2 = 0 then f else f + 1

/-- round(q, 2) of the Python code, idealised over the rationals. -/
def round2 (q : ℚ) : ℚ := (roundHalfEvenInt (q * 100) : ℚ) / 100

/-- Payload of the f-strings returned by _get_recommendation_reason: which of
the three message templates is chosen, and the interpolated savings amount. -/
inductive RecoReason
  | oldSaveMore (savings : ℚ)
  | oldOptimal (savings : ℚ)
  | newNoRequirements (savings : ℚ)
deriving DecidableEq

/-- TaxCalculationAgent._get_recommendation_reason. -/
def _get_recommendation_reason (income investments_80c : ℚ) (optimal_regime : String)
    (savings : ℚ) : RecoReason :=
  if optimal_regime = "old" then
    if investments_80c < 100000 then .oldSaveMore savings else .oldOptimal savings
  else .newNoRequirements savings

/-- TaxCalculationAgent._get_tax_planning_tips. -/
def _get_tax_planning_tips (income : ℚ) (regime : String) : List String :=
  let tips : List String :=
    if regime = "old" then
      ["Maximize 80C investments before March 31st",
       "Consider health insurance for 80D benefits",
       "Plan HRA if you pay rent"]
    else
      ["Focus on wealth creation without tax constraints",
       "Consider equity investments for long-term growth",
       "No rush for tax-saving investments"]
  let tips :=
    if income > 1000000 then
      tips ++ ["Consider NPS for additional 50K deduction under 80CCD(1B)"]
    else tips
  if income > 500000 then tips ++ ["Plan advance tax payments to avoid penalties"] else tips

/-- One recommendation dictionary of _generate_investment_recommendations.
The field sec models the key named section, a reserved word of Lean. -/
structure InvestmentRec where
  type : String
  sec : String
  suggested_amount : ℚ
  tax_saving : ℚ
  benefits : List String
  risk_level : String
deriving DecidableEq

/-- The dictionary returned by _generate_investment_recommendations. -/
structure Recommendations where
  investment_suggestions : List InvestmentRec
  total_potential_savings : ℚ
deriving DecidableEq

/-- TaxCalculationAgent._generate_investment_recommendations. -/
def _generate_investment_recommendations (income existing_80c : ℚ) (optimal_regime : String) :
    Recommendations :=
  let base : List InvestmentRec :=
    if optimal_regime = "old" then
      let remaining_80c := max 0 (section_80c_limit - existing_80c)
      let tax_bracket : ℚ := if income > 1000000 then 0.30 else if income > 500000 then 0.20 else 0.05
      if remaining_80c > 0 then
        let elss_amount := min remaining_80c 50000
        let elss : InvestmentRec :=
          { type := "ELSS Mutual Funds"
            sec := "80C"
            suggested_amount := elss_amount
            tax_saving := elss_amount * tax_bracket
            benefits := ["Tax saving", "Equity returns potential", "3-year lock-in period"]
            risk_level := "Medium to High" }
        if remaining_80c > elss_amount then
          let ppf_amount := min (remaining_80c - elss_amount) 100000
          [elss,
           { type := "Public Provident Fund (PPF)"
             sec := "80C"
             suggested_amount := ppf_amount
             tax_saving := ppf_amount * tax_bracket
             benefits := ["Tax saving", "EEE benefit", "Guaranteed returns"]
             risk_level := "Low" }]
        else [elss]
      else []
    else []
  let recommendations := base ++
    [{ type := "Health Insurance Premium"
       sec := "80D"
       suggested_amount := 25000
       tax_saving := 25000 * (if income > 1000000 then (0.30 : ℚ) else 0.20)
       benefits := ["Tax saving", "Health coverage", "Family protection"]
       risk_level := "None" }]
  { investment_suggestions := recommendations
    total_potential_savings := (recommendations.map (fun r => r.tax_saving)).sum }

/-- One suggestion dictionary of _get_investment_suggestions_for_frontend. -/
structure Suggestion where
  type : String
  amount : ℚ
  tax_benefit : ℚ
  category : String
  risk : String
  lock_in : String
  returns_potential : String
  description : String
deriving DecidableEq

/-- TaxCalculationAgent._get_investment_suggestions_for_frontend. -/
def _get_investment_suggestions_for_frontend (income existing_80c : ℚ) : List Suggestion :=
  let remaining_80c := max 0 (section_80c_limit - existing_80c)
  let tax_bracket : ℚ := if income > 1000000 then 0.30 else if income > 500000 then 0.20 else 0.05
  let base : List Suggestion :=
    if remaining_80c > 0 then
      let elss_amount := min 50000 remaining_80c
      let elss : Suggestion :=
        { type := "ELSS Mutual Funds"
          amount := elss_amount
          tax_benefit := elss_amount * tax_bracket
          category := "80C"
          risk := "Medium to High"
          lock_in := "3 years"
          returns_potential := "12-15% annually"
          description := "Best for long-term wealth creation with tax benefits" }
      if remaining_80c > elss_amount then
        let ppf_amount := min 100000 (remaining_80c - elss_amount)
        [elss,
         { type := "Public Provident Fund (PPF)"
           amount := ppf_amount
           tax_benefit := ppf_amount * tax_bracket
           category := "80C"
           risk := "Low"
           lock_in := "15 years"
           returns_potential := "7-8% annually"
           description := "Safe long-term investment with triple tax benefit" }]
      else [elss]
    else []
  base ++
    [{ type := "Health Insurance Premium"
       amount := 25000
       tax_benefit := 25000 * tax_bracket
       category := "80D"
       risk := "None"
       lock_in := "Annual"
       returns_potential := "Health coverage + tax savings"
       description := "Essential health protection with tax benefits" }]

/-- Payload type for the action and impact texts of _generate_action_items:
constant strings stay verbatim, f-strings become constructors carrying the
interpolated amount. -/
inductive Msg
  | lit (s : String)
  | investRemaining80C (amount : ℚ)
  | saveUpToInTaxes (amount : ℚ)
  | saveInTaxesPlusHealth (amount : ℚ)
deriving DecidableEq

/-- One action-item dictionary of _generate_action_items. -/
structure ActionItem where
  priority : String
  action : Msg
  timeline : String
  impact : Msg
  options : List String
  deadline : String
deriving DecidableEq

/-- TaxCalculationAgent._generate_action_items (the recommendations argument is
accepted and ignored, as in the source). -/
def _generate_action_items (existing_80c : ℚ) (recommendations : Recommendations)
    (income : ℚ) : List ActionItem :=
  let remaining_80c := max 0 (section_80c_limit - existing_80c)
  let tax_bracket : ℚ := if income > 1000000 then 0.30 else if income > 500000 then 0.20 else 0.05
  let base : List ActionItem :=
    if remaining_80c > 0 then
      [{ priority := "High"
         action := .investRemaining80C remaining_80c
         timeline := "Before March 31st"
         impact := .saveUpToInTaxes (remaining_80c * tax_bracket)
         options := ["ELSS Mutual Funds", "PPF", "NSC", "Tax-saving FD"]
         deadline := "March 31, 2024" }]
    else []
  let base := base ++
    [{ priority := "Medium"
       action := .lit "Review and optimize health insurance coverage"
       timeline := "Any time during the year"
       impact := .saveInTaxesPlusHealth (25000 * tax_bracket)
       options := ["Individual policy", "Family floater", "Top-up plans"]
       deadline := "Before policy renewal" }]
  if income > 1000000 then
    base ++
      [{ priority := "Medium"
         action := .lit "Consider National Pension System (NPS)"
         timeline := "Any time during the year"
         impact := .lit "Additional ₹50,000 deduction under 80CCD(1B)"
         options := ["Tier-1 NPS account"]
         deadline := "Before March 31st" }]
  else base

/-- The comparison dictionary built by _mock_tax_calculation. -/
structure Comparison where
  optimal_regime : String
  tax_savings : ℚ
  savings_percentage : ℚ
  recommendation_reason : RecoReason
deriving DecidableEq

/-- The per-regime dictionary built by _mock_tax_calculation: the dict-spread
of the regime calculation result is modelled by the field base. -/
structure RegimeReport where
  base : RegimeCalc
  regime : String
  recommended : Bool
  taxBreakdown : List BreakdownEntry
  effectiveRate : ℚ
  savings : ℚ
deriving DecidableEq

/-- The calculations dictionary built by _mock_tax_calculation. -/
structure Calculations where
  old_regime : RegimeReport
  new_regime : RegimeReport
  comparison : Comparison
  recommendations : Recommendations
  action_items : List ActionItem
  investment_suggestions : List Suggestion
  tax_planning_tips : List String
deriving DecidableEq

/-- The dictionary returned by _mock_tax_calculation. -/
structure MockResult where
  status : String
  timestamp : String
  calculations : Calculations
deriving DecidableEq

/-- TaxCalculationAgent._mock_tax_calculation.  The parameter now is the value
of datetime.now().isoformat() at the time of the call. -/
def _mock_tax_calculation (now : String) (financial_data : FinancialData) : MockResult :=
  let annual_income := financial_data.annual_income.getD 1200000
  let existing_80c := financial_data.investments_80c.getD 50000
  let existing_80d := financial_data.health_insurance.getD 0
  let home_loan_interest := financial_data.home_loan_interest.getD 0
  let hra_claimed := financial_data.hra_claimed.getD 0
  let old_regime :=
    _calculate_old_regime annual_income existing_80c existing_80d home_loan_interest hra_claimed
  let new_regime := _calculate_new_regime annual_income
  let optimal_regime := if old_regime.total_tax < new_regime.total_tax then "old" else "new"
  let tax_savings := |old_regime.total_tax - new_regime.total_tax|
  let recommendations :=
    _generate_investment_recommendations annual_income existing_80c optimal_regime
  { status := "success"
    timestamp := now
    calculations :=
      { old_regime :=
          { base := old_regime
            regime := "Old Regime"
            recommended := optimal_regime == "old"
            taxBreakdown := _get_tax_breakdown old_regime.taxable_income "old"
            effectiveRate :=
              if annual_income > 0 then round2 (old_regime.total_tax / annual_income * 100) else 0
            savings := if optimal_regime = "old" then tax_savings else 0 }
        new_regime :=
          { base := new_regime
            regime := "New Regime"
            recommended := optimal_regime == "new"
            taxBreakdown := _get_tax_breakdown new_regime.taxable_income "new"
            effectiveRate :=
              if annual_income > 0 then round2 (new_regime.total_tax / annual_income * 100) else 0
            savings := if optimal_regime = "new" then tax_savings else 0 }
        comparison :=
          { optimal_regime := optimal_regime
            tax_savings := tax_savings
            savings_percentage :=
              round2 (tax_savings / max old_regime.total_tax (max new_regime.total_tax 1) * 100)
            recommendation_reason :=
              _get_recommendation_reason annual_income existing_80c optimal_regime tax_savings }
        recommendations := recommendations
        action_items := _generate_action_items existing_80c recommendations annual_income
        investment_suggestions :=
          _get_investment_suggestions_for_frontend annual_income existing_80c
        tax_planning_tips := _get_tax_planning_tips annual_income optimal_regime } }

/-- Outcome of the optional external AI agent call inside
calculate_tax_liability: no usable agent, a returned response, or a raised
exception carrying a message. -/
inductive AgentOutcome
  | noAgent
  | ok (response : String)
  | failed (message : String)
deriving DecidableEq

/-- The dictionary returned by calculate_tax_liability on its success path:
the mock result plus the optional ai_insights key and the response_source key. -/
structure LiabilityResult where
  status : String
  timestamp : String
  calculations : Calculations
  ai_insights : Option String
  response_source : String
deriving DecidableEq

/-- The truncation applied to the AI response before storing it. -/
def truncate500 (s : String) : String :=
  if s.length > 500 then s.take 500 ++ "..." else s

/-- TaxCalculationAgent.calculate_tax_liability.  The mock computation is
total, so the outer try/except of the Python code never fires; the only
branching is on the outcome of the AI call. -/
def calculate_tax_liability (agent : AgentOutcome) (now : String)
    (financial_data : FinancialData) : LiabilityResult :=
  let mock := _mock_tax_calculation now financial_data
  match agent with
  | .ok response =>
      { status := mock.status
        timestamp := mock.timestamp
        calculations := mock.calculations
        ai_insights := some (truncate500 response)
        response_source := "AI Enhanced" }
  | .failed _ =>
      { status := mock.status
        timestamp := mock.timestamp
        calculations := mock.calculations
        ai_insights := none
        response_source := "Mock with AI Error" }
  | .noAgent =>
      { status := mock.status
        timestamp := mock.timestamp
        calculations := mock.calculations
        ai_insights := none
        response_source := "Mock Calculation" }

/-- Membership of an income level in a slab: at least the lower bound and,
for a bounded slab, at most the upper bound. -/
def inSlab (I : ℚ) (s : Slab) : Prop :=
  s.min ≤ I ∧ match s.max with | some m => I ≤ m | none => True

/-- Clipped linear ramp used to express slab contributions in closed form. -/
def clip (m c I : ℚ) : ℚ := max 0 (min (I - m) c)

lemma clip_of_le (m c I : ℚ) (h : I ≤ m) : clip m c I = 0 := by
  unfold clip
  rw [max_eq_left (le_trans (min_le_left _ _) (by linarith))]

lemma clip_eq_sub (m c I : ℚ) (h1 : m ≤ I) (h2 : I - m ≤ c) : clip m c I = I - m := by
  unfold clip
  rw [min_eq_left h2, max_eq_right (by linarith)]

lemma clip_eq_cap (m c I : ℚ) (h1 : 0 ≤ c) (h2 : m + c ≤ I) : clip m c I = c := by
  unfold clip
  rw [min_eq_right (by linarith), max_eq_right h1]

lemma clip_mono (m c : ℚ) {I₁ I₂ : ℚ} (h : I₁ ≤ I₂) : clip m c I₁ ≤ clip m c I₂ := by
  unfold clip
  exact max_le_max le_rfl (min_le_min (by linarith) le_rfl)

/-- Closed form of the contribution of a bounded slab. -/
lemma slabContribution_some (m M r I : ℚ) :
    slabContribution I ⟨m, some M, r⟩ = clip m (M - m) I * r / 100 := by
  unfold slabContribution slab_max clip
  by_cases h : I > m
  · rw [if_pos h]
    by_cases ht : min (I - m) (M - m) > 0
    · rw [if_pos ht, max_eq_right ht.le]
    · rw [if_neg ht]
      push_neg at ht
      rw [max_eq_left ht]
      ring
  · rw [if_neg h]
    push_neg at h
    rw [max_eq_left (le_trans (min_le_left _ _) (by linarith))]
    ring

/-- Closed form of the contribution of the unbounded slab, whose effective
upper bound is remaining_income + slab_min. -/
lemma slabContribution_none (m r I : ℚ) (hm : 0 ≤ m) :
    slabContribution I ⟨m, none, r⟩ = max 0 (I - m) * r / 100 := by
  unfold slabContribution slab_max
  have hmin : min (I - m) (I + m - m) = I - m := min_eq_left (by linarith)
  rw [hmin]
  by_cases h : I > m
  · rw [if_pos h, if_pos (by linarith : I - m > 0), max_eq_right (by linarith : (0:ℚ) ≤ I - m)]
  · rw [if_neg h]
    push_neg at h
    rw [max_eq_left (by linarith : I - m ≤ (0:ℚ))]
    ring

lemma slabContribution_nonneg (I : ℚ) (s : Slab) (hr : 0 ≤ s.rate) :
    0 ≤ slabContribution I s := by
  unfold slabContribution
  split_ifs with h1 h2
  · exact div_nonneg (mul_nonneg (le_of_lt h2) hr) (by norm_num)
  · exact le_refl 0
  · exact le_refl 0

lemma slabContribution_mono (s : Slab) (hr : 0 ≤ s.rate) (hm : 0 ≤ s.min)
    {I₁ I₂ : ℚ} (h : I₁ ≤ I₂) : slabContribution I₁ s ≤ slabContribution I₂ s := by
  obtain ⟨m, mx, r⟩ := s
  cases mx with
  | some M =>
      rw [slabContribution_some, slabContribution_some]
      have hc := clip_mono m (M - m) h
      have := mul_le_mul_of_nonneg_right hc hr
      linarith
  | none =>
      rw [slabContribution_none m r I₁ hm, slabContribution_none m r I₂ hm]
      have hc : max 0 (I₁ - m) ≤ max 0 (I₂ - m) := max_le_max le_rfl (by linarith)
      have := mul_le_mul_of_nonneg_right hc hr
      linarith

lemma taxBySlabsLoop_nonneg (I : ℚ) :
    ∀ slabs : List Slab, (∀ s ∈ slabs, 0 ≤ s.rate) → 0 ≤ taxBySlabsLoop I slabs := by
  intro slabs
  induction slabs with
  | nil => intro _; exact le_of_eq rfl
  | cons s rest ih =>
      intro hr
      rw [taxBySlabsLoop]
      split_ifs
      · exact le_refl 0
      · exact add_nonneg (slabContribution_nonneg I s (hr s (List.mem_cons_self s rest)))
          (ih fun t ht => hr t (List.mem_cons_of_mem s ht))

lemma taxBySlabsLoop_mono :
    ∀ slabs : List Slab, (∀ s ∈ slabs, 0 ≤ s.rate ∧ 0 ≤ s.min) →
      ∀ {I₁ I₂ : ℚ}, 0 ≤ I₁ → I₁ ≤ I₂ →
        taxBySlabsLoop I₁ slabs ≤ taxBySlabsLoop I₂ slabs := by
  intro slabs
  induction slabs with
  | nil => intro _ I₁ I₂ _ _; exact le_of_eq rfl
  | cons s rest ih =>
      intro h I₁ I₂ h0 h12
      rw [taxBySlabsLoop, taxBySlabsLoop]
      rcases le_or_lt I₁ 0 with hI1 | hI1
      · rw [if_pos hI1]
        split_ifs with hI2
        · exact le_refl 0
        · exact add_nonneg
            (slabContribution_nonneg I₂ s (h s (List.mem_cons_self s rest)).1)
            (taxBySlabsLoop_nonneg I₂ rest fun t ht => (h t (List.mem_cons_of_mem s ht)).1)
      · rw [if_neg (not_le.mpr hI1), if_neg (not_le.mpr (lt_of_lt_of_le hI1 h12))]
        exact add_le_add
          (slabContribution_mono s (h s (List.mem_cons_self s rest)).1
            (h s (List.mem_cons_self s rest)).2 h12)
          (ih (fun t ht => h t (List.mem_cons_of_mem s ht)) h0 h12)

lemma taxBySlabsLoop_eq_sum (I : ℚ) (hI : 0 < I) :
    ∀ slabs : List Slab, taxBySlabsLoop I slabs = (slabs.map (slabContribution I)).sum := by
  intro slabs
  induction slabs with
  | nil => rfl
  | cons s rest ih =>
      rw [taxBySlabsLoop, if_neg (not_le.mpr hI), List.map_cons, List.sum_cons, ih]

/-- Closed form of the raw tax of the old-regime table for non-negative income. -/
lemma oldTax_closed (I : ℚ) (hI : 0 ≤ I) :
    _calculate_tax_by_slabs I old_regime_slabs =
      clip 0 250000 I * 0 / 100 + clip 250001 249999 I * 5 / 100 +
        clip 500001 499999 I * 20 / 100 + max 0 (I - 1000001) * 30 / 100 := by
  rcases eq_or_lt_of_le hI with h0 | h0
  · rw [_calculate_tax_by_slabs, old_regime_slabs, taxBySlabsLoop, if_pos (le_of_eq h0.symm)]
    rw [clip_of_le 250001 249999 I (by linarith), clip_of_le 500001 499999 I (by linarith),
        clip_eq_sub 0 250000 I (by linarith) (by linarith),
        max_eq_left (by linarith : I - 1000001 ≤ (0:ℚ))]
    linarith
  · have h4 : slabContribution I ⟨1000001, none, 30⟩ = max 0 (I - 1000001) * 30 / 100 :=
      slabContribution_none 1000001 30 I (by norm_num)
    rw [_calculate_tax_by_slabs, taxBySlabsLoop_eq_sum I h0, old_regime_slabs]
    simp only [List.map_cons, List.map_nil, List.sum_cons, List.sum_nil,
      slabContribution_some, h4]
    norm_num
    ring

/-- Closed form of the raw tax of the new-regime table for non-negative income. -/
lemma newTax_closed (I : ℚ) (hI : 0 ≤ I) :
    _calculate_tax_by_slabs I new_regime_slabs =
      clip 0 300000 I * 0 / 100 + clip 300001 299999 I * 5 / 100 +
        clip 600001 299999 I * 10 / 100 + clip 900001 299999 I * 15 / 100 +
        clip 1200001 299999 I * 20 / 100 + max 0 (I - 1500001) * 30 / 100 := by
  rcases eq_or_lt_of_le hI with h0 | h0
  · rw [_calculate_tax_by_slabs, new_regime_slabs, taxBySlabsLoop, if_pos (le_of_eq h0.symm)]
    rw [clip_of_le 300001 299999 I (by linarith), clip_of_le 600001 299999 I (by linarith),
        clip_of_le 900001 299999 I (by linarith), clip_of_le 1200001 299999 I (by linarith),
        clip_eq_sub 0 300000 I (by linarith) (by linarith),
        max_eq_left (by linarith : I - 1500001 ≤ (0:ℚ))]
    linarith
  · have h6 : slabContribution I ⟨1500001, none, 30⟩ = max 0 (I - 1500001) * 30 / 100 :=
      slabContribution_none 1500001 30 I (by norm_num)
    rw [_calculate_tax_by_slabs, taxBySlabsLoop_eq_sum I h0, new_regime_slabs]
    simp only [List.map_cons, List.map_nil, List.sum_cons, List.sum_nil,
      slabContribution_some, h6]
    norm_num
    ring

/-- C1: the spec claims the taxable_amount fields of the _get_tax_breakdown
entries always sum to the taxable income.  The code violates this: at taxable
income 300000 under the old regime the breakdown has a single entry carrying
250000, because the loop decrements remaining_income yet keeps comparing it
against absolute slab lower bounds, so the 250001 slab is skipped. -/
theorem C1_breakdown_amount_sum_failure :
    ((_get_tax_breakdown 300000 "old").map (fun e => e.taxable_amount)).sum = 250000 ∧
      (250000 : ℚ) ≠ 300000 := by
  constructor
  · norm_num [_get_tax_breakdown, breakdownLoop, slab_max, old_regime_slabs]
  · norm_num

/-- C2: the spec claims the tax fields of the _get_tax_breakdown entries sum
to the total of _calculate_tax_by_slabs.  The code violates this: at taxable
income 300000 under the old regime the breakdown taxes sum to 0 while the
evaluator returns 2499.95. -/
theorem C2_breakdown_disagrees_with_evaluator :
    ((_get_tax_breakdown 300000 "old").map (fun e => e.tax)).sum = 0 ∧
      _calculate_tax_by_slabs 300000 old_regime_slabs = 249995 / 100 ∧
      (0 : ℚ) ≠ 249995 / 100 := by
  refine ⟨?_, ?_, by norm_num⟩
  · norm_num [_get_tax_breakdown, breakdownLoop, slab_max, old_regime_slabs]
  · norm_num [_calculate_tax_by_slabs, taxBySlabsLoop, slabContribution, slab_max,
      old_regime_slabs]

/-- C3 counterexample: at gross income 0 both regimes owe exactly 0 tax, a
tie, and the comparator selects new, not old as the claim states. -/
theorem C3_tie_selects_new_counterexample :
    (_mock_tax_calculation "t" ⟨some 0, some 0, some 0, some 0, some 0⟩).calculations.old_regime.base.total_tax =
      (_mock_tax_calculation "t" ⟨some 0, some 0, some 0, some 0, some 0⟩).calculations.new_regime.base.total_tax ∧
    (_mock_tax_calculation "t" ⟨some 0, some 0, some 0, some 0, some 0⟩).calculations.comparison.optimal_regime = "new" ∧
    ("new" : String) ≠ "old" := by
  refine ⟨?_, ?_, by decide⟩ <;>
    norm_num [_mock_tax_calculation, _calculate_old_regime, _calculate_new_regime,
      _calculate_tax_by_slabs, taxBySlabsLoop, slabContribution, slab_max,
      standard_deduction, section_80c_limit, section_80d_limit, old_regime_slabs,
      new_regime_slabs]

/-- C3 amended: the comparator selects old exactly when the old-regime total
tax is strictly smaller than the new-regime total tax; on ties, including
gross income 0, it selects new. -/
theorem C3_optimal_regime_argmin (now : String) (fd : FinancialData) :
    ((_mock_tax_calculation now fd).calculations.comparison.optimal_regime =
      if (_mock_tax_calculation now fd).calculations.old_regime.base.total_tax <
          (_mock_tax_calculation now fd).calculations.new_regime.base.total_tax
        then "old" else "new") ∧
    ((_mock_tax_calculation now fd).calculations.old_regime.base.total_tax =
        (_mock_tax_calculation now fd).calculations.new_regime.base.total_tax →
      (_mock_tax_calculation now fd).calculations.comparison.optimal_regime = "new") := by
  have h1 : (_mock_tax_calculation now fd).calculations.comparison.optimal_regime =
      if (_mock_tax_calculation now fd).calculations.old_regime.base.total_tax <
          (_mock_tax_calculation now fd).calculations.new_regime.base.total_tax
        then "old" else "new" := rfl
  refine ⟨h1, fun h => ?_⟩
  rw [h1, if_neg (by rw [h]; exact lt_irrefl _)]

/-- C3 witness: the amended tie rule applied at the all-zero profile. -/
theorem C3_optimal_regime_argmin_witness :
    (_mock_tax_calculation "t" ⟨some 0, some 0, some 0, some 0, some 0⟩).calculations.comparison.optimal_regime = "new" :=
  (C3_optimal_regime_argmin "t" ⟨some 0, some 0, some 0, some 0, some 0⟩).2
    (by norm_num [_mock_tax_calculation, _calculate_old_regime, _calculate_new_regime,
      _calculate_tax_by_slabs, taxBySlabsLoop, slabContribution, slab_max,
      standard_deduction, section_80c_limit, section_80d_limit, old_regime_slabs,
      new_regime_slabs])

/-- C4: in the old regime every deduction is clamped at its cap - 80C at
150000, 80D at 25000, 24B at 200000, HRA at half the gross income - the
standard deduction is the fixed 50000, and the taxable income is the gross
income minus the five deductions, floored at 0. -/
theorem C4_old_regime_deduction_caps
    (income investments_80c health_insurance home_loan hra : ℚ)
    (h1 : 0 ≤ income) (h2 : 0 ≤ investments_80c) (h3 : 0 ≤ health_insurance)
    (h4 : 0 ≤ home_loan) (h5 : 0 ≤ hra) :
    (_calculate_old_regime income investments_80c health_insurance home_loan hra).deductions.section_80c
        = min investments_80c 150000 ∧
    (_calculate_old_regime income investments_80c health_insurance home_loan hra).deductions.section_80c
        ≤ 150000 ∧
    (_calculate_old_regime income investments_80c health_insurance home_loan hra).deductions.section_80d
        = min health_insurance 25000 ∧
    (_calculate_old_regime income investments_80c health_insurance home_loan hra).deductions.section_80d
        ≤ 25000 ∧
    (_calculate_old_regime income investments_80c health_insurance home_loan hra).deductions.section_24b
        = min home_loan 200000 ∧
    (_calculate_old_regime income investments_80c health_insurance home_loan hra).deductions.section_24b
        ≤ 200000 ∧
    (_calculate_old_regime income investments_80c health_insurance home_loan hra).deductions.hra
        = min hra (0.5 * income) ∧
    (_calculate_old_regime income investments_80c health_insurance home_loan hra).deductions.hra
        ≤ 0.5 * income ∧
    (_calculate_old_regime income investments_80c health_insurance home_loan hra).deductions.standard_deduction
        = 50000 ∧
    (_calculate_old_regime income investments_80c health_insurance home_loan hra).taxable_income
        = max 0 (income -
            (50000 + min investments_80c 150000 + min health_insurance 25000 +
              min home_loan 200000 + min hra (0.5 * income))) := by
  have ehra :
      (_calculate_old_regime income investments_80c health_insurance home_loan hra).deductions.hra
        = min hra (0.5 * income) := by
    rw [mul_comm (0.5 : ℚ) income]
    rfl
  have etax :
      (_calculate_old_regime income investments_80c health_insurance home_loan hra).taxable_income
        = max 0 (income -
            (50000 + min investments_80c 150000 + min health_insurance 25000 +
              min home_loan 200000 + min hra (0.5 * income))) := by
    rw [mul_comm (0.5 : ℚ) income]
    rfl
  refine ⟨rfl, min_le_right _ _, rfl, min_le_right _ _, rfl, min_le_right _ _,
    ehra, ?_, rfl, etax⟩
  rw [ehra]
  exact min_le_right _ _

/-- C4 witness: the caps at a profile whose 80C, 24B and HRA inputs all
exceed their caps (the spec scenario with income 2000000 and 80C 200000). -/
theorem C4_old_regime_deduction_caps_witness :
    (_calculate_old_regime 2000000 200000 30000 250000 1200000).deductions.section_80c
        = min 200000 150000 ∧
    (_calculate_old_regime 2000000 200000 30000 250000 1200000).deductions.section_80c
        ≤ 150000 ∧
    (_calculate_old_regime 2000000 200000 30000 250000 1200000).deductions.section_80d
        = min 30000 25000 ∧
    (_calculate_old_regime 2000000 200000 30000 250000 1200000).deductions.section_80d
        ≤ 25000 ∧
    (_calculate_old_regime 2000000 200000 30000 250000 1200000).deductions.section_24b
        = min 250000 200000 ∧
    (_calculate_old_regime 2000000 200000 30000 250000 1200000).deductions.section_24b
        ≤ 200000 ∧
    (_calculate_old_regime 2000000 200000 30000 250000 1200000).deductions.hra
        = min 1200000 (0.5 * 2000000) ∧
    (_calculate_old_regime 2000000 200000 30000 250000 1200000).deductions.hra
        ≤ 0.5 * 2000000 ∧
    (_calculate_old_regime 2000000 200000 30000 250000 1200000).deductions.standard_deduction
        = 50000 ∧
    (_calculate_old_regime 2000000 200000 30000 250000 1200000).taxable_income
        = max 0 (2000000 -
            (50000 + min 200000 150000 + min 30000 25000 +
              min 250000 200000 + min 1200000 (0.5 * 2000000))) :=
  C4_old_regime_deduction_caps 2000000 200000 30000 250000 1200000
    (by norm_num) (by norm_num) (by norm_num) (by norm_num) (by norm_num)

/-- C5: for every input and both regimes, cess is exactly 4 percent of the
raw slab tax and the total tax is exactly 1.04 times the raw slab tax. -/
theorem C5_cess_invariant (income investments_80c health_insurance home_loan hra : ℚ) :
    ((_calculate_old_regime income investments_80c health_insurance home_loan hra).cess =
        0.04 * (_calculate_old_regime income investments_80c health_insurance home_loan hra).tax_before_cess) ∧
    ((_calculate_old_regime income investments_80c health_insurance home_loan hra).total_tax =
        (_calculate_old_regime income investments_80c health_insurance home_loan hra).tax_before_cess * 1.04) ∧
    ((_calculate_new_regime income).cess = 0.04 * (_calculate_new_regime income).tax_before_cess) ∧
    ((_calculate_new_regime income).total_tax = (_calculate_new_regime income).tax_before_cess * 1.04) := by
  refine ⟨?_, ?_, ?_, ?_⟩ <;>
    · simp only [_calculate_old_regime, _calculate_new_regime]
      ring

/-- C6: on both regime tables the raw slab tax is a non-decreasing function
of non-negative taxable income, and it is piecewise linear: between any two
income levels lying in the same slab the tax difference is exactly the income
difference times that slab rate over 100. -/
theorem C6_slab_tax_monotone_piecewise_linear :
    (∀ tbl : List Slab, tbl = old_regime_slabs ∨ tbl = new_regime_slabs →
      ∀ I₁ I₂ : ℚ, 0 ≤ I₁ → I₁ ≤ I₂ →
        _calculate_tax_by_slabs I₁ tbl ≤ _calculate_tax_by_slabs I₂ tbl) ∧
    (∀ tbl : List Slab, tbl = old_regime_slabs ∨ tbl = new_regime_slabs →
      ∀ s ∈ tbl, ∀ I₁ I₂ : ℚ, inSlab I₁ s → inSlab I₂ s →
        _calculate_tax_by_slabs I₂ tbl - _calculate_tax_by_slabs I₁ tbl =
          (I₂ - I₁) * s.rate / 100) := by
  constructor
  · intro tbl htbl I₁ I₂ h0 h12
    have hcond : ∀ s ∈ tbl, 0 ≤ s.rate ∧ 0 ≤ s.min := by
      rcases htbl with rfl | rfl <;> decide
    exact taxBySlabsLoop_mono tbl hcond h0 h12
  · intro tbl htbl s hs
    rcases htbl with rfl | rfl
    · simp only [old_regime_slabs, List.mem_cons, List.not_mem_nil, or_false] at hs
      rcases hs with rfl | rfl | rfl | rfl
      · intro I₁ I₂ h₁ h₂
        obtain ⟨ha1, hb1⟩ := h₁
        obtain ⟨ha2, hb2⟩ := h₂
        have ha1 : (0:ℚ) ≤ I₁ := ha1
        have hb1 : I₁ ≤ (250000:ℚ) := hb1
        have ha2 : (0:ℚ) ≤ I₂ := ha2
        have hb2 : I₂ ≤ (250000:ℚ) := hb2
        rw [oldTax_closed I₁ (by linarith), oldTax_closed I₂ (by linarith),
            clip_eq_sub 0 250000 I₁ (by linarith) (by linarith),
            clip_eq_sub 0 250000 I₂ (by linarith) (by linarith),
            clip_of_le 250001 249999 I₁ (by linarith),
            clip_of_le 250001 249999 I₂ (by linarith),
            clip_of_le 500001 499999 I₁ (by linarith),
            clip_of_le 500001 499999 I₂ (by linarith),
            max_eq_left (by linarith : I₁ - 1000001 ≤ (0:ℚ)),
            max_eq_left (by linarith : I₂ - 1000001 ≤ (0:ℚ))]
        show _ = (I₂ - I₁) * 0 / 100
        ring
      · intro I₁ I₂ h₁ h₂
        obtain ⟨ha1, hb1⟩ := h₁
        obtain ⟨ha2, hb2⟩ := h₂
        have ha1 : (250001:ℚ) ≤ I₁ := ha1
        have hb1 : I₁ ≤ (500000:ℚ) := hb1
        have ha2 : (250001:ℚ) ≤ I₂ := ha2
        have hb2 : I₂ ≤ (500000:ℚ) := hb2
        rw [oldTax_closed I₁ (by linarith), oldTax_closed I₂ (by linarith),
            clip_eq_cap 0 250000 I₁ (by norm_num) (by linarith),
            clip_eq_cap 0 250000 I₂ (by norm_num) (by linarith),
            clip_eq_sub 250001 249999 I₁ (by linarith) (by linarith),
            clip_eq_sub 250001 249999 I₂ (by linarith) (by linarith),
            clip_of_le 500001 499999 I₁ (by linarith),
            clip_of_le 500001 499999 I₂ (by linarith),
            max_eq_left (by linarith : I₁ - 1000001 ≤ (0:ℚ)),
            max_eq_left (by linarith : I₂ - 1000001 ≤ (0:ℚ))]
        show _ = (I₂ - I₁) * 5 / 100
        ring
      · intro I₁ I₂ h₁ h₂
        obtain ⟨ha1, hb1⟩ := h₁
        obtain ⟨ha2, hb2⟩ := h₂
        have ha1 : (500001:ℚ) ≤ I₁ := ha1
        have hb1 : I₁ ≤ (1000000:ℚ) := hb1
        have ha2 : (500001:ℚ) ≤ I₂ := ha2
        have hb2 : I₂ ≤ (1000000:ℚ) := hb2
        rw [oldTax_closed I₁ (by linarith), oldTax_closed I₂ (by linarith),
            clip_eq_cap 0 250000 I₁ (by norm_num) (by linarith),
            clip_eq_cap 0 250000 I₂ (by norm_num) (by linarith),
            clip_eq_cap 250001 249999 I₁ (by norm_num) (by linarith),
            clip_eq_cap 250001 249999 I₂ (by norm_num) (by linarith),
            clip_eq_sub 500001 499999 I₁ (by linarith) (by linarith),
            clip_eq_sub 500001 499999 I₂ (by linarith) (by linarith),
            max_eq_left (by linarith : I₁ - 1000001 ≤ (0:ℚ)),
            max_eq_left (by linarith : I₂ - 1000001 ≤ (0:ℚ))]
        show _ = (I₂ - I₁) * 20 / 100
        ring
      · intro I₁ I₂ h₁ h₂
        obtain ⟨ha1, -⟩ := h₁
        obtain ⟨ha2, -⟩ := h₂
        have ha1 : (1000001:ℚ) ≤ I₁ := ha1
        have ha2 : (1000001:ℚ) ≤ I₂ := ha2
        rw [oldTax_closed I₁ (by linarith), oldTax_closed I₂ (by linarith),
            clip_eq_cap 0 250000 I₁ (by norm_num) (by linarith),
            clip_eq_cap 0 250000 I₂ (by norm_num) (by linarith),
            clip_eq_cap 250001 249999 I₁ (by norm_num) (by linarith),
            clip_eq_cap 250001 249999 I₂ (by norm_num) (by linarith),
            clip_eq_cap 500001 499999 I₁ (by norm_num) (by linarith),
            clip_eq_cap 500001 499999 I₂ (by norm_num) (by linarith),
            max_eq_right (by linarith : (0:ℚ) ≤ I₁ - 1000001),
            max_eq_right (by linarith : (0:ℚ) ≤ I₂ - 1000001)]
        show _ = (I₂ - I₁) * 30 / 100
        ring
    · simp only [new_regime_slabs, List.mem_cons, List.not_mem_nil, or_false] at hs
      rcases hs with rfl | rfl | rfl | rfl | rfl | rfl
      · intro I₁ I₂ h₁ h₂
        obtain ⟨ha1, hb1⟩ := h₁
        obtain ⟨ha2, hb2⟩ := h₂
        have ha1 : (0:ℚ) ≤ I₁ := ha1
        have hb1 : I₁ ≤ (300000:ℚ) := hb1
        have ha2 : (0:ℚ) ≤ I₂ := ha2
        have hb2 : I₂ ≤ (300000:ℚ) := hb2
        rw [newTax_closed I₁ (by linarith), newTax_closed I₂ (by linarith),
            clip_eq_sub 0 300000 I₁ (by linarith) (by linarith),
            clip_eq_sub 0 300000 I₂ (by linarith) (by linarith),
            clip_of_le 300001 299999 I₁ (by linarith),
            clip_of_le 300001 299999 I₂ (by linarith),
            clip_of_le 600001 299999 I₁ (by linarith),
            clip_of_le 600001 299999 I₂ (by linarith),
            clip_of_le 900001 299999 I₁ (by linarith),
            clip_of_le 900001 299999 I₂ (by linarith),
            clip_of_le 1200001 299999 I₁ (by linarith),
            clip_of_le 1200001 299999 I₂ (by linarith),
            max_eq_left (by linarith : I₁ - 1500001 ≤ (0:ℚ)),
            max_eq_left (by linarith : I₂ - 1500001 ≤ (0:ℚ))]
        show _ = (I₂ - I₁) * 0 / 100
        ring
      · intro I₁ I₂ h₁ h₂
        obtain ⟨ha1, hb1⟩ := h₁
        obtain ⟨ha2, hb2⟩ := h₂
        have ha1 : (300001:ℚ) ≤ I₁ := ha1
        have hb1 : I₁ ≤ (600000:ℚ) := hb1
        have ha2 : (300001:ℚ) ≤ I₂ := ha2
        have hb2 : I₂ ≤ (600000:ℚ) := hb2
        rw [newTax_closed I₁ (by linarith), newTax_closed I₂ (by linarith),
            clip_eq_cap 0 300000 I₁ (by norm_num) (by linarith),
            clip_eq_cap 0 300000 I₂ (by norm_num) (by linarith),
            clip_eq_sub 300001 299999 I₁ (by linarith) (by linarith),
            clip_eq_sub 300001 299999 I₂ (by linarith) (by linarith),
            clip_of_le 600001 299999 I₁ (by linarith),
            clip_of_le 600001 299999 I₂ (by linarith),
            clip_of_le 900001 299999 I₁ (by linarith),
            clip_of_le 900001 299999 I₂ (by linarith),
            clip_of_le 1200001 299999 I₁ (by linarith),
            clip_of_le 1200001 299999 I₂ (by linarith),
            max_eq_left (by linarith : I₁ - 1500001 ≤ (0:ℚ)),
            max_eq_left (by linarith : I₂ - 1500001 ≤ (0:ℚ))]
        show _ = (I₂ - I₁) * 5 / 100
        ring
      · intro I₁ I₂ h₁ h₂
        obtain ⟨ha1, hb1⟩ := h₁
        obtain ⟨ha2, hb2⟩ := h₂
        have ha1 : (600001:ℚ) ≤ I₁ := ha1
        have hb1 : I₁ ≤ (900000:ℚ) := hb1
        have ha2 : (600001:ℚ) ≤ I₂ := ha2
        have hb2 : I₂ ≤ (900000:ℚ) := hb2
        rw [newTax_closed I₁ (by linarith), newTax_closed I₂ (by linarith),
            clip_eq_cap 0 300000 I₁ (by norm_num) (by linarith),
            clip_eq_cap 0 300000 I₂ (by norm_num) (by linarith),
            clip_eq_cap 300001 299999 I₁ (by norm_num) (by linarith),
            clip_eq_cap 300001 299999 I₂ (by norm_num) (by linarith),
            clip_eq_sub 600001 299999 I₁ (by linarith) (by linarith),
            clip_eq_sub 600001 299999 I₂ (by linarith) (by linarith),
            clip_of_le 900001 299999 I₁ (by linarith),
            clip_of_le 900001 299999 I₂ (by linarith),
            clip_of_le 1200001 299999 I₁ (by linarith),
            clip_of_le 1200001 299999 I₂ (by linarith),
            max_eq_left (by linarith : I₁ - 1500001 ≤ (0:ℚ)),
            max_eq_left (by linarith : I₂ - 1500001 ≤ (0:ℚ))]
        show _ = (I₂ - I₁) * 10 / 100
        ring
      · intro I₁ I₂ h₁ h₂
        obtain ⟨ha1, hb1⟩ := h₁
        obtain ⟨ha2, hb2⟩ := h₂
        have ha1 : (900001:ℚ) ≤ I₁ := ha1
        have hb1 : I₁ ≤ (1200000:ℚ) := hb1
        have ha2 : (900001:ℚ) ≤ I₂ := ha2
        have hb2 : I₂ ≤ (1200000:ℚ) := hb2
        rw [newTax_closed I₁ (by linarith), newTax_closed I₂ (by linarith),
            clip_eq_cap 0 300000 I₁ (by norm_num) (by linarith),
            clip_eq_cap 0 300000 I₂ (by norm_num) (by linarith),
            clip_eq_cap 300001 299999 I₁ (by norm_num) (by linarith),
            clip_eq_cap 300001 299999 I₂ (by norm_num) (by linarith),
            clip_eq_cap 600001 299999 I₁ (by norm_num) (by linarith),
            clip_eq_cap 600001 299999 I₂ (by norm_num) (by linarith),
            clip_eq_sub 900001 299999 I₁ (by linarith) (by linarith),
            clip_eq_sub 900001 299999 I₂ (by linarith) (by linarith),
            clip_of_le 1200001 299999 I₁ (by linarith),
            clip_of_le 1200001 299999 I₂ (by linarith),
            max_eq_left (by linarith : I₁ - 1500001 ≤ (0:ℚ)),
            max_eq_left (by linarith : I₂ - 1500001 ≤ (0:ℚ))]
        show _ = (I₂ - I₁) * 15 / 100
        ring
      · intro I₁ I₂ h₁ h₂
        obtain ⟨ha1, hb1⟩ := h₁
        obtain ⟨ha2, hb2⟩ := h₂
        have ha1 : (1200001:ℚ) ≤ I₁ := ha1
        have hb1 : I₁ ≤ (1500000:ℚ) := hb1
        have ha2 : (1200001:ℚ) ≤ I₂ := ha2
        have hb2 : I₂ ≤ (1500000:ℚ) := hb2
        rw [newTax_closed I₁ (by linarith), newTax_closed I₂ (by linarith),
            clip_eq_cap 0 300000 I₁ (by norm_num) (by linarith),
            clip_eq_cap 0 300000 I₂ (by norm_num) (by linarith),
            clip_eq_cap 300001 299999 I₁ (by norm_num) (by linarith),
            clip_eq_cap 300001 299999 I₂ (by norm_num) (by linarith),
            clip_eq_cap 600001 299999 I₁ (by norm_num) (by linarith),
            clip_eq_cap 600001 299999 I₂ (by norm_num) (by linarith),
            clip_eq_cap 900001 299999 I₁ (by norm_num) (by linarith),
            clip_eq_cap 900001 299999 I₂ (by norm_num) (by linarith),
            clip_eq_sub 1200001 299999 I₁ (by linarith) (by linarith),
            clip_eq_sub 1200001 299999 I₂ (by linarith) (by linarith),
            max_eq_left (by linarith : I₁ - 1500001 ≤ (0:ℚ)),
            max_eq_left (by linarith : I₂ - 1500001 ≤ (0:ℚ))]
        show _ = (I₂ - I₁) * 20 / 100
        ring
      · intro I₁ I₂ h₁ h₂
        obtain ⟨ha1, -⟩ := h₁
        obtain ⟨ha2, -⟩ := h₂
        have ha1 : (1500001:ℚ) ≤ I₁ := ha1
        have ha2 : (1500001:ℚ) ≤ I₂ := ha2
        rw [newTax_closed I₁ (by linarith), newTax_closed I₂ (by linarith),
            clip_eq_cap 0 300000 I₁ (by norm_num) (by linarith),
            clip_eq_cap 0 300000 I₂ (by norm_num) (by linarith),
            clip_eq_cap 300001 299999 I₁ (by norm_num) (by linarith),
            clip_eq_cap 300001 299999 I₂ (by norm_num) (by linarith),
            clip_eq_cap 600001 299999 I₁ (by norm_num) (by linarith),
            clip_eq_cap 600001 299999 I₂ (by norm_num) (by linarith),
            clip_eq_cap 900001 299999 I₁ (by norm_num) (by linarith),
            clip_eq_cap 900001 299999 I₂ (by norm_num) (by linarith),
            clip_eq_cap 1200001 299999 I₁ (by norm_num) (by linarith),
            clip_eq_cap 1200001 299999 I₂ (by norm_num) (by linarith),
            max_eq_right (by linarith : (0:ℚ) ≤ I₁ - 1500001),
            max_eq_right (by linarith : (0:ℚ) ≤ I₂ - 1500001)]
        show _ = (I₂ - I₁) * 30 / 100
        ring

/-- C6 witness: monotonicity between 0 and 600000 on the old table, and the
five-percent slope between 300000 and 400000 inside the second old slab. -/
theorem C6_slab_tax_monotone_piecewise_linear_witness :
    _calculate_tax_by_slabs 0 old_regime_slabs ≤ _calculate_tax_by_slabs 600000 old_regime_slabs ∧
    _calculate_tax_by_slabs 400000 old_regime_slabs - _calculate_tax_by_slabs 300000 old_regime_slabs
      = (400000 - 300000) * 5 / 100 :=
  ⟨C6_slab_tax_monotone_piecewise_linear.1 old_regime_slabs (Or.inl rfl) 0 600000
      (by norm_num) (by norm_num),
   C6_slab_tax_monotone_piecewise_linear.2 old_regime_slabs (Or.inl rfl)
      ⟨250001, some 500000, 5⟩ (by norm_num [old_regime_slabs]) 300000 400000
      (by norm_num [inSlab]) (by norm_num [inSlab])⟩

/-- C7 counterexample: an input with negative annual_income and negative 80C
investments is not rejected - calculate_tax_liability returns a success
result, not an error. -/
theorem C7_no_rejection_counterexample :
    (calculate_tax_liability .noAgent "t"
        ⟨some (-1), some (-2), some 0, some 0, some 0⟩).status = "success" ∧
      ("success" : String) ≠ "error" := by
  refine ⟨rfl, by decide⟩

/-- C7 amended: calculate_tax_liability performs no input validation at all:
for every input, negative monetary fields included, it returns the success
result of the mock computation rather than a structured error. -/
theorem C7_no_validation (agent : AgentOutcome) (now : String) (fd : FinancialData) :
    (calculate_tax_liability agent now fd).status = "success" ∧
      (calculate_tax_liability agent now fd).calculations =
        (_mock_tax_calculation now fd).calculations := by
  cases agent <;> exact ⟨rfl, rfl⟩

/-- C8 counterexample: with every field absent the old-regime taxable income
is 1100000 (annual_income defaults to 1200000 and investments_80c to 50000),
whereas setting annual_income to 0 yields taxable income 0 - so an absent
field is not treated as 0. -/
theorem C8_default_not_zero_counterexample :
    (_mock_tax_calculation "t" ⟨none, none, none, none, none⟩).calculations.old_regime.base.taxable_income
        = 1100000 ∧
    (_mock_tax_calculation "t" ⟨some 0, none, none, none, none⟩).calculations.old_regime.base.taxable_income
        = 0 ∧
    (1100000 : ℚ) ≠ 0 := by
  refine ⟨?_, ?_, by norm_num⟩ <;>
    norm_num [_mock_tax_calculation, _calculate_old_regime,
      standard_deduction, section_80c_limit, section_80d_limit]

/-- C8 amended: an absent annual_income defaults to 1200000 and an absent
investments_80c to 50000, while absent health_insurance, home_loan_interest
and hra_claimed default to 0: every input is computed exactly as if each
absent field were replaced by its default. -/
theorem C8_field_defaults (now : String) (fd : FinancialData) :
    _mock_tax_calculation now fd =
      _mock_tax_calculation now
        ⟨some (fd.annual_income.getD 1200000), some (fd.investments_80c.getD 50000),
         some (fd.health_insurance.getD 0), some (fd.home_loan_interest.getD 0),
         some (fd.hra_claimed.getD 0)⟩ := rfl

/-- C9 counterexample: the returned dictionary embeds the wall-clock
timestamp, so two invocations on identical input at different instants are
not byte-identical. -/
theorem C9_timestamp_counterexample :
    calculate_tax_liability .noAgent "2024-01-01T00:00:00"
        ⟨some 800000, some 50000, some 15000, some 80000, some 0⟩ ≠
      calculate_tax_liability .noAgent "2024-01-01T00:00:01"
        ⟨some 800000, some 50000, some 15000, some 80000, some 0⟩ := by
  intro h
  have ht := congrArg LiabilityResult.timestamp h
  exact absurd ht (by decide)

/-- C9 amended: apart from the embedded timestamp the engine is pure - every
other field of the output agrees across two invocations on identical input,
whatever the two clock readings are. -/
theorem C9_pure_up_to_timestamp (t₁ t₂ : String) (agent : AgentOutcome) (fd : FinancialData) :
    (calculate_tax_liability agent t₁ fd).status = (calculate_tax_liability agent t₂ fd).status ∧
    (calculate_tax_liability agent t₁ fd).calculations =
      (calculate_tax_liability agent t₂ fd).calculations ∧
    (calculate_tax_liability agent t₁ fd).ai_insights =
      (calculate_tax_liability agent t₂ fd).ai_insights ∧
    (calculate_tax_liability agent t₁ fd).response_source =
      (calculate_tax_liability agent t₂ fd).response_source := by
  cases agent <;> exact ⟨rfl, rfl, rfl, rfl⟩

/-- C10: when the external AI call raises, the request still succeeds: the
full numeric mock computation (regimes, comparison, recommendations) is
returned, the narrative ai_insights field is absent, and the source field
records the degradation. -/
theorem C10_ai_failure_degrades_gracefully (message now : String) (fd : FinancialData) :
    (calculate_tax_liability (.failed message) now fd).status = "success" ∧
    (calculate_tax_liability (.failed message) now fd).calculations =
      (_mock_tax_calculation now fd).calculations ∧
    (calculate_tax_liability (.failed message) now fd).ai_insights = none ∧
    (calculate_tax_liability (.failed message) now fd).response_source = "Mock with AI Error" :=
  ⟨rfl, rfl, rfl, rfl⟩

end TaxAgent
